import Mathlib

/-
Verification of the erbium network-services daemon: the DHCPv4 handler
pipeline (src/dhcp/mod.rs) and the DNS out-query cache (src/dns/cache.rs).

Times are modelled as natural numbers counting seconds: a Rust Instant
becomes a Nat, a Duration becomes a Nat, and Duration.as_secs is the
identity.  IPv4 addresses are modelled as Nat.  HashMap and HashSet are
modelled as association lists and lists; retain becomes List.filter and
insert replaces any previous binding of the key.
-/

namespace Dns

/-- The error type of the dns::outquery module (outquery::Error).  The
variants and their payloads are read off the exhaustive match in
clone_out_reply in src/dns/cache.rs; io::Error payloads are modelled by
their display string, which is all the cache ever uses of them. -/
inductive OutqueryError where
  | Timeout : OutqueryError
  | FailedToSend (io : String) : OutqueryError
  | FailedToSendMsg (msg : String) : OutqueryError
  | FailedToRecv (io : String) : OutqueryError
  | FailedToRecvMsg (msg : String) : OutqueryError
  | TcpConnectionError (msg : String) : OutqueryError
  | ParseError (msg : String) : OutqueryError
  | InternalError (msg : String) : OutqueryError
deriving DecidableEq

/-- The dns::Error type (super::Error in src/dns/cache.rs), with the
variants matched by clone_out_reply.  Payloads of the four variants the
cache treats as unreachable are modelled as strings. -/
inductive Error where
  | NotAuthoritative : Error
  | OutReply (e : OutqueryError) : Error
  | ListenError (msg : String) : Error
  | RecvError (msg : String) : Error
  | ParseError (msg : String) : Error
  | RefusedByAcl (msg : String) : Error
deriving DecidableEq

/-- Modelled from the spec: a DNS resource record as far as the cache is
concerned, a TTL in seconds plus opaque remaining data (the dnspkt module
is outside the visible source). -/
structure DnsRR where
  rdata : String
  ttl : Nat
deriving DecidableEq

/-- Modelled from the spec: a parsed DNS reply packet (dnspkt::DNSPkt is
outside the visible source).  rrs collects every resource record of the
packet; expiry carries the value returned by get_expiry, which upstream
computes as the minimum TTL across the authoritative sections. -/
structure DNSPkt where
  rrs : List DnsRR
  expiry : Nat
deriving DecidableEq

/-- Modelled from the spec: DNSPkt.get_expiry, the cache lifetime the
upstream computed for a successful reply. -/
def DNSPkt.get_expiry (p : DNSPkt) : Nat := p.expiry

/-- Modelled from the spec: DNSPkt.clone_with_ttl_decrement decrements the
TTL of every resource record by the given number of seconds, saturating at
zero (Nat subtraction saturates).  The source passes the decrement as
Duration.as_secs() cast to u32; lifetimes are derived from u32 TTLs and the
8-second negative lifetime, so a still-live entry always has a decrement
below 2^32 and the cast is lossless. -/
def DNSPkt.clone_with_ttl_decrement (p : DNSPkt) (decrement : Nat) : DNSPkt :=
  { p with rrs := p.rrs.map (fun r => { r with ttl := r.ttl - decrement }) }

/-- CacheKey from src/dns/cache.rs: qname is a dnspkt::Domain (modelled as
a string) and qtype a dnspkt::Type (modelled as a Nat). -/
structure CacheKey where
  qname : String
  qtype : Nat
deriving DecidableEq

deriving instance DecidableEq for Except

/-- CacheValue from src/dns/cache.rs. -/
structure CacheValue where
  reply : Except Error DNSPkt
  birth : Nat
  lifetime : Nat
deriving DecidableEq

/-- The Cache type: HashMap modelled as an association list. -/
abbrev Cache := List (CacheKey × CacheValue)

/-- HashMap.get on the association list. -/
def cacheGet (c : Cache) (k : CacheKey) : Option CacheValue :=
  (c.find? (fun kv => decide (kv.1 = k))).map (fun kv => kv.2)

/-- HashMap.insert on the association list: any previous binding of the
key is replaced. -/
def cacheInsert (c : Cache) (k : CacheKey) (v : CacheValue) : Cache :=
  (k, v) :: c.filter (fun kv => decide (kv.1 ≠ k))

/-- Cache.len on the association list. -/
def cacheLen (c : Cache) : Nat := c.length

/-- One pass of the retain call in CacheHandler::expire
(src/dns/cache.rs lines 144 to 147) at sweep time now: HashMap.retain
keeps exactly the entries on which the closure returns true, and the
closure returns v.birth + v.lifetime < now. -/
def expireSweep (c : Cache) (now : Nat) : Cache :=
  c.filter (fun kv => decide (kv.2.birth + kv.2.lifetime < now))

/-- The question of an inbound query (dnspkt::Question as used by the
cache: qdomain, qtype, qclass). -/
structure Question where
  qdomain : String
  qtype : Nat
  qclass : Nat
deriving DecidableEq

/-- The in_query field of a DnsMessage. -/
structure InQuery where
  question : Question
deriving DecidableEq

/-- DnsMessage as consumed by CacheHandler::handle_query. -/
structure DnsMessage where
  in_query : InQuery
deriving DecidableEq

/-- dnspkt::CLASS_IN, the Internet class. -/
def CLASS_IN : Nat := 1

/-- The mutable state handle_query and expire act on: the cache map
behind the RwLock, the dns_cache_size gauge, and the four labelled
dns_cache counters (HIT, MISS, EXPIRED, UNCACHABLE_CLASS). -/
structure CacheState where
  cache : Cache
  dns_cache_size : Nat
  hit : Nat
  miss : Nat
  expired : Nat
  uncachable_class : Nat
deriving DecidableEq

/-- clone_out_reply from src/dns/cache.rs.  The four arms the source marks
unreachable are modelled as none, standing for the panic. -/
def clone_out_reply : Except Error DNSPkt → Option (Except Error DNSPkt)
  | .ok out_reply => some (.ok out_reply)
  | .error .NotAuthoritative => some (.error .NotAuthoritative)
  | .error (.OutReply .Timeout) => some (.error (.OutReply .Timeout))
  | .error (.OutReply (.FailedToSend io)) =>
      some (.error (.OutReply (.FailedToSendMsg io)))
  | .error (.OutReply (.FailedToSendMsg msg)) =>
      some (.error (.OutReply (.FailedToSendMsg msg)))
  | .error (.OutReply (.FailedToRecv io)) =>
      some (.error (.OutReply (.FailedToRecvMsg io)))
  | .error (.OutReply (.FailedToRecvMsg msg)) =>
      some (.error (.OutReply (.FailedToRecvMsg msg)))
  | .error (.OutReply (.TcpConnectionError msg)) =>
      some (.error (.OutReply (.TcpConnectionError msg)))
  | .error (.OutReply (.ParseError msg)) =>
      some (.error (.OutReply (.ParseError msg)))
  | .error (.OutReply (.InternalError msg)) =>
      some (.error (.OutReply (.InternalError msg)))
  | .error (.ListenError _) => none
  | .error (.RecvError _) => none
  | .error (.ParseError _) => none
  | .error (.RefusedByAcl _) => none

/-- clone_with_ttl_decrement_out_reply from src/dns/cache.rs. -/
def clone_with_ttl_decrement_out_reply (reply : Except Error DNSPkt)
    (decrement : Nat) : Option (Except Error DNSPkt) :=
  match reply with
  | .ok out_reply => some (.ok (out_reply.clone_with_ttl_decrement decrement))
  | err => clone_out_reply err

/-- The result of one run of handle_query: the value returned to the
caller, the cache state afterwards, and whether the upstream OutQuery was
invoked. -/
structure QueryOutcome where
  result : Except Error DNSPkt
  state : CacheState
  upstream_called : Bool
deriving DecidableEq

/-- The branch of handle_query that decides the cache lifetime after the
upstream call (src/dns/cache.rs lines 203 to 217): some lifetime when the
result will be inserted, none when the arm `e => return clone_out_reply(e)`
is taken. -/
def lifetimeFor (out_result : Except Error DNSPkt) : Option Nat :=
  match out_result with
  | .ok out_reply => some out_reply.get_expiry
  | .error (.OutReply .Timeout) => some 8
  | .error (.OutReply (.FailedToSend _)) => some 8
  | .error (.OutReply (.FailedToRecv _)) => some 8
  | .error (.OutReply (.TcpConnectionError _)) => some 8
  | .error (.OutReply (.ParseError _)) => some 8
  | _ => none

/-- The tail of handle_query after the lookup missed (src/dns/cache.rs
lines 200 to 235): call upstream, decide the lifetime, either return the
clone of a non-cacheable result, or insert the cloned result born at
t_ins and set the size gauge to the post-insert entry count.  none models
a panic inside clone_out_reply. -/
def handle_query_miss (st : CacheState) (ck : CacheKey) (t_ins : Nat)
    (out_result : Except Error DNSPkt) : Option QueryOutcome :=
  match lifetimeFor out_result with
  | none =>
      (clone_out_reply out_result).map (fun r =>
        { result := r, state := st, upstream_called := true })
  | some expiry =>
      (clone_out_reply out_result).map (fun stored =>
        let newCache := cacheInsert st.cache ck
          { reply := stored, birth := t_ins, lifetime := expiry }
        { result := out_result,
          state := { st with cache := newCache,
                             dns_cache_size := cacheLen newCache },
          upstream_called := true })

/-- CacheHandler::handle_query from src/dns/cache.rs (lines 168 to 236),
in state-passing form.  now is the Instant taken at the hit check, t_ins
the Instant taken at insertion, and out_result the value the upstream
OutQuery would return if invoked.  none models a panic. -/
def handle_query (st : CacheState) (msg : DnsMessage) (now t_ins : Nat)
    (out_result : Except Error DNSPkt) : Option QueryOutcome :=
  let q := msg.in_query.question
  if q.qclass ≠ CLASS_IN then
    some { result := out_result,
           state := { st with uncachable_class := st.uncachable_class + 1 },
           upstream_called := true }
  else
    let ck : CacheKey := { qname := q.qdomain, qtype := q.qtype }
    match cacheGet st.cache ck with
    | some entry =>
        if entry.birth + entry.lifetime > now then
          (clone_with_ttl_decrement_out_reply entry.reply
              (now - entry.birth)).map (fun r =>
            { result := r, state := { st with hit := st.hit + 1 },
              upstream_called := false })
        else
          handle_query_miss { st with expired := st.expired + 1 } ck t_ins
            out_result
    | none =>
        handle_query_miss { st with miss := st.miss + 1 } ck t_ins out_result

/-- The errors the cache can clone: exactly the arms of clone_out_reply
that do not panic. -/
def cloneable (r : Except Error DNSPkt) : Bool :=
  match r with
  | .ok _ => true
  | .error .NotAuthoritative => true
  | .error (.OutReply _) => true
  | .error (.ListenError _) => false
  | .error (.RecvError _) => false
  | .error (.ParseError _) => false
  | .error (.RefusedByAcl _) => false

/-- The five transport-failure kinds that handle_query caches negatively
for 8 seconds. -/
def isTransportFailure (e : Error) : Bool :=
  match e with
  | .OutReply .Timeout => true
  | .OutReply (.FailedToSend _) => true
  | .OutReply (.FailedToRecv _) => true
  | .OutReply (.TcpConnectionError _) => true
  | .OutReply (.ParseError _) => true
  | _ => false

end Dns

namespace Dhcp

/-- Modelled from the spec: dhcppkt::OP_BOOTREPLY, the BOOTP reply opcode
(the dhcppkt module is outside the visible source; the spec gives
request=1, reply=2). -/
def OP_BOOTREPLY : Nat := 2

/-- Modelled from the spec: dhcppkt::HWTYPE_ETHERNET (1=Ethernet). -/
def HWTYPE_ETHERNET : Nat := 1

/-- Modelled from the spec: dhcppkt message-type codes DISCOVER=1,
OFFER=2, REQUEST=3, ACK=5. -/
def DHCPDISCOVER : Nat := 1

/-- Modelled from the spec: the OFFER message-type code. -/
def DHCPOFFER : Nat := 2

/-- Modelled from the spec: the REQUEST message-type code. -/
def DHCPREQUEST : Nat := 3

/-- Modelled from the spec: the ACK message-type code. -/
def DHCPACK : Nat := 5

/-- dhcppkt::DhcpOptions, with the fields the handlers in
src/dhcp/mod.rs construct and read.  Option codes and raw bytes are
modelled as Nats; the clientidentifier payload as a list of bytes. -/
structure DhcpOptions where
  messagetype : Nat
  hostname : Option String
  parameterlist : Option (List Nat)
  leasetime : Option Nat
  serveridentifier : Option Nat
  clientidentifier : Option (List Nat)
  other : List (Nat × List Nat)
deriving DecidableEq

/-- dhcppkt::DHCP, the decoded DHCPv4 message, with the fields the
handlers in src/dhcp/mod.rs construct and read.  IPv4 addresses are Nats
and Ipv4Addr::UNSPECIFIED is 0. -/
structure DHCP where
  op : Nat
  htype : Nat
  hlen : Nat
  hops : Nat
  xid : Nat
  secs : Nat
  flags : Nat
  ciaddr : Nat
  yiaddr : Nat
  siaddr : Nat
  giaddr : Nat
  chaddr : List Nat
  sname : List Nat
  file : List Nat
  options : DhcpOptions
deriving DecidableEq

/-- std::net::SocketAddr, as matched by the handlers: either an IPv4
address and port or an IPv6 one. -/
inductive SockAddr where
  | V4 (ip : Nat) (port : Nat) : SockAddr
  | V6 (ip : Nat) (port : Nat) : SockAddr
deriving DecidableEq

/-- The parse-error payload of DhcpError (dhcppkt::ParseError is outside
the visible source; modelled as a string). -/
abbrev DhcpParseError := String

/-- DhcpError from src/dhcp/mod.rs. -/
inductive DhcpError where
  | UnknownMessageType (m : Nat) : DhcpError
  | NoLeasesAvailable : DhcpError
  | ParseError (e : DhcpParseError) : DhcpError
  | InternalError (msg : String) : DhcpError
  | OtherServer : DhcpError
deriving DecidableEq

/-- pool::Lease as consumed by the handlers: the allocated IPv4 address
and the lease duration in seconds. -/
structure Lease where
  ip : Nat
  lease : Nat
deriving DecidableEq

/-- Modelled from the spec: the AddressPool contract (the pool module is
outside the visible source).  allocate_address takes a pool name and
returns a lease or nothing when the pool is exhausted. -/
structure Pools where
  allocate_address : String → Option Lease

/-- The ServerIds set (HashSet of IPv4 addresses), modelled as a list. -/
abbrev ServerIds := List Nat

/-- HashSet.contains on the list model. -/
def serverIdsContains (s : ServerIds) (ip : Nat) : Bool :=
  List.elem ip s

/-- HashSet.insert on the list model. -/
def serverIdsInsert (s : ServerIds) (ip : Nat) : ServerIds :=
  if serverIdsContains s ip then s else ip :: s

/-- handle_discover from src/dhcp/mod.rs (lines 70 to 110).  The second
component counts how many times pools.allocate_address was invoked. -/
def handle_discover (pools : Pools) (req : DHCP) (fromAddr : SockAddr)
    (_serverids : ServerIds) : Except DhcpError DHCP × Nat :=
  match fromAddr with
  | .V4 ip _port =>
      (match pools.allocate_address "default" with
       | some lease =>
           (.ok { op := OP_BOOTREPLY
                  htype := HWTYPE_ETHERNET
                  hlen := 6
                  hops := 0
                  xid := req.xid
                  secs := 0
                  flags := req.flags
                  ciaddr := 0
                  yiaddr := lease.ip
                  siaddr := 0
                  giaddr := req.giaddr
                  chaddr := req.chaddr
                  sname := []
                  file := []
                  options := { messagetype := DHCPOFFER
                               hostname := req.options.hostname
                               parameterlist := none
                               leasetime := none
                               serveridentifier := some ip
                               clientidentifier := req.options.clientidentifier
                               other := [] } }, 1)
       | none => (.error .NoLeasesAvailable, 1))
  | _ =>
      (.error (.InternalError "Missing v4 addresses on received packet"), 0)

/-- The body of handle_request after the server-identifier gate
(src/dhcp/mod.rs lines 123 to 154). -/
def handle_request_body (pools : Pools) (req : DHCP)
    (fromAddr : SockAddr) : Except DhcpError DHCP × Nat :=
  match fromAddr with
  | .V4 _ip _port =>
      (match pools.allocate_address "default" with
       | some lease =>
           (.ok { op := OP_BOOTREPLY
                  htype := HWTYPE_ETHERNET
                  hlen := 6
                  hops := 0
                  xid := req.xid
                  secs := 0
                  flags := req.flags
                  ciaddr := req.ciaddr
                  yiaddr := lease.ip
                  siaddr := 0
                  giaddr := req.giaddr
                  chaddr := req.chaddr
                  sname := []
                  file := []
                  options := { messagetype := DHCPACK
                               hostname := req.options.hostname
                               parameterlist := none
                               leasetime := some lease.lease
                               serveridentifier := req.options.serveridentifier
                               clientidentifier := req.options.clientidentifier
                               other := [] } }, 1)
       | none => (.error .NoLeasesAvailable, 1))
  | _ => (.error .OtherServer, 0)

/-- The server-identifier gate at the top of handle_request
(src/dhcp/mod.rs lines 118 to 122): true when processing may continue. -/
def serverIdCheckPasses (req : DHCP) (serverids : ServerIds) : Bool :=
  match req.options.serveridentifier with
  | some si => serverIdsContains serverids si
  | none => true

/-- handle_request from src/dhcp/mod.rs (lines 112 to 155).  The second
component counts how many times pools.allocate_address was invoked. -/
def handle_request (pools : Pools) (req : DHCP) (fromAddr : SockAddr)
    (serverids : ServerIds) : Except DhcpError DHCP × Nat :=
  if serverIdCheckPasses req serverids then
    handle_request_body pools req fromAddr
  else
    (.error .OtherServer, 0)

/-- handle_pkt from src/dhcp/mod.rs (lines 157 to 175).  dhcppkt::parse is
outside the visible source, so the already-parsed result is taken as an
argument. -/
def handle_pkt (pools : Pools) (parsed : Except DhcpParseError DHCP)
    (fromAddr : SockAddr) (serverids : ServerIds) :
    Except DhcpError DHCP × Nat :=
  match parsed with
  | .ok req =>
      if req.options.messagetype = DHCPDISCOVER then
        handle_discover pools req fromAddr serverids
      else if req.options.messagetype = DHCPREQUEST then
        handle_request pools req fromAddr serverids
      else
        (.error (.UnknownMessageType req.options.messagetype), 0)
  | .error e => (.error (.ParseError e), 0)

/-- The externally visible actions of one run of recvdhcp, in program
order. -/
inductive DhcpEvent where
  | insertServerId (ip : Nat) : DhcpEvent
  | transmit (reply : DHCP) : DhcpEvent
  | logError (e : DhcpError) : DhcpEvent
deriving DecidableEq

/-- recvdhcp from src/dhcp/mod.rs (lines 199 to 236), as the ordered list
of its externally visible actions plus the updated shared server-id set.
The handler runs on the snapshot serverids; on success the advertised
server-id (when present) is inserted into the shared set, then the reply
is serialised and transmitted.  A non-IPv4 source panics at the
unimplemented arm, modelled as none. -/
def recvdhcp (pools : Pools) (serverids : ServerIds)
    (parsed : Except DhcpParseError DHCP) (fromAddr : SockAddr) :
    Option (List DhcpEvent × ServerIds) :=
  match fromAddr with
  | .V4 _ _ =>
      match (handle_pkt pools parsed fromAddr serverids).1 with
      | .ok r =>
          match r.options.serveridentifier with
          | some si =>
              some ([.insertServerId si, .transmit r],
                    serverIdsInsert serverids si)
          | none => some ([.transmit r], serverids)
      | .error e => some ([.logError e], serverids)
  | _ => none

/-- The listener configuration of run_internal (src/dhcp/mod.rs lines
259 to 264): the bind address handed to UdpSocket::bind and the value
passed to set_opt_ipv4_packet_info. -/
structure ListenerSetup where
  bind_addr : String
  ipv4_packet_info : Bool
deriving DecidableEq

/-- The listener run_internal creates. -/
def run_internal_listener : ListenerSetup :=
  { bind_addr := "0.0.0.0:1067", ipv4_packet_info := true }

end Dhcp

namespace Dns

/-- The CacheKey handle_query forms from the question of the message
(src/dns/cache.rs lines 178 to 181). -/
def cacheKeyOf (msg : DnsMessage) : CacheKey :=
  { qname := msg.in_query.question.qdomain
    qtype := msg.in_query.question.qtype }

/-- One iteration of the expiry task acting on the full observable state:
CacheHandler::expire only touches the cache map (it never writes the
dns_cache_size gauge or the counters). -/
def expireSweepState (st : CacheState) (now : Nat) : CacheState :=
  { st with cache := expireSweep st.cache now }

/-- Every entry of the cache stores a reply that clone_out_reply can
clone without reaching an unreachable arm. -/
def cacheAllCloneable (c : Cache) : Bool :=
  c.all (fun kv => cloneable kv.2.reply)

end Dns

/-- A pool that always leases 192.0.2.50 (3221226034) for 3600 seconds,
used to instantiate the C2 theorem. -/
def pools_w2 : Dhcp.Pools :=
  { allocate_address := fun _ => some { ip := 3221226034, lease := 3600 } }

/-- The DISCOVER of scenario S1 (xid 0xDEADBEEF, broadcast flag,
chaddr 02:00:00:00:00:01), used to instantiate the C2 theorem. -/
def req_w2 : Dhcp.DHCP :=
  { op := 1, htype := 1, hlen := 6, hops := 0, xid := 3735928559, secs := 0
    flags := 32768, ciaddr := 0, yiaddr := 0, siaddr := 0, giaddr := 0
    chaddr := [2, 0, 0, 0, 0, 1], sname := [], file := []
    options := { messagetype := 1, hostname := none, parameterlist := none
                 leasetime := none, serveridentifier := none
                 clientidentifier := none, other := [] } }

/-- The OFFER the handler produces for req_w2 from 192.0.2.1:68
(3221225985), used to instantiate the C2 theorem. -/
def reply_w2 : Dhcp.DHCP :=
  { op := 2, htype := 1, hlen := 6, hops := 0, xid := 3735928559, secs := 0
    flags := 32768, ciaddr := 0, yiaddr := 3221226034, siaddr := 0
    giaddr := 0, chaddr := [2, 0, 0, 0, 0, 1], sname := [], file := []
    options := { messagetype := 2, hostname := none, parameterlist := none
                 leasetime := none, serveridentifier := some 3221225985
                 clientidentifier := none, other := [] } }

/-- The REQUEST of scenario S2: serveridentifier 198.51.100.9
(3325256713), used to instantiate the C3 theorem. -/
def req_w3 : Dhcp.DHCP :=
  { op := 1, htype := 1, hlen := 6, hops := 0, xid := 3735928559, secs := 0
    flags := 32768, ciaddr := 0, yiaddr := 0, siaddr := 0, giaddr := 0
    chaddr := [2, 0, 0, 0, 0, 1], sname := [], file := []
    options := { messagetype := 3, hostname := none, parameterlist := none
                 leasetime := none, serveridentifier := some 3325256713
                 clientidentifier := none, other := [] } }

/-- A pool used to instantiate the C3 theorem. -/
def pools_w3 : Dhcp.Pools :=
  { allocate_address := fun _ => some { ip := 3221226034, lease := 3600 } }

/-- A REQUEST without a serveridentifier option, used to instantiate the
C9 theorem at an IPv6 source. -/
def req_w9 : Dhcp.DHCP :=
  { op := 1, htype := 1, hlen := 6, hops := 0, xid := 7, secs := 0
    flags := 0, ciaddr := 0, yiaddr := 0, siaddr := 0, giaddr := 0
    chaddr := [2, 0, 0, 0, 0, 1], sname := [], file := []
    options := { messagetype := 3, hostname := none, parameterlist := none
                 leasetime := none, serveridentifier := none
                 clientidentifier := none, other := [] } }

/-- A pool used to instantiate the C9 theorem. -/
def pools_w9 : Dhcp.Pools :=
  { allocate_address := fun _ => some { ip := 3221226034, lease := 3600 } }

/-- A pool used to instantiate the C8 theorem. -/
def pools_w8 : Dhcp.Pools :=
  { allocate_address := fun _ => some { ip := 3221226034, lease := 3600 } }

/-- A DISCOVER used to instantiate the C8 theorem. -/
def req_w8 : Dhcp.DHCP :=
  { op := 1, htype := 1, hlen := 6, hops := 0, xid := 99, secs := 0
    flags := 0, ciaddr := 0, yiaddr := 0, siaddr := 0, giaddr := 0
    chaddr := [2, 0, 0, 0, 0, 1], sname := [], file := []
    options := { messagetype := 1, hostname := none, parameterlist := none
                 leasetime := none, serveridentifier := none
                 clientidentifier := none, other := [] } }

/-- The OFFER recvdhcp transmits for req_w8 arriving from 192.0.2.1:68
(3221225985), used to instantiate the C8 theorem. -/
def reply_w8 : Dhcp.DHCP :=
  { op := 2, htype := 1, hlen := 6, hops := 0, xid := 99, secs := 0
    flags := 0, ciaddr := 0, yiaddr := 3221226034, siaddr := 0
    giaddr := 0, chaddr := [2, 0, 0, 0, 0, 1], sname := [], file := []
    options := { messagetype := 2, hostname := none, parameterlist := none
                 leasetime := none, serveridentifier := some 3221225985
                 clientidentifier := none, other := [] } }

/-- The empty cache state, used to instantiate the C6 theorems. -/
def st0_w6 : Dns.CacheState :=
  { cache := [], dns_cache_size := 0, hit := 0, miss := 0, expired := 0
    uncachable_class := 0 }

/-- An IN query for a.example.com type A, used to instantiate the C6
theorems. -/
def msg_w6 : Dns.DnsMessage :=
  { in_query :=
    { question := { qdomain := "a.example.com", qtype := 1, qclass := 1 } } }

/-- A successful upstream reply with one A record of TTL 300 and a
computed expiry of 10 seconds, used to instantiate the C6 theorems. -/
def pkt_w6 : Dns.DNSPkt :=
  { rrs := [{ rdata := "192.0.2.7", ttl := 300 }], expiry := 10 }

/-- The cache state after handle_query inserts pkt_w6 at time 0 into the
empty cache: one entry, gauge 1, one recorded miss. -/
def st1_w6 : Dns.CacheState :=
  { cache := [({ qname := "a.example.com", qtype := 1 },
      { reply := .ok pkt_w6, birth := 0, lifetime := 10 })]
    dns_cache_size := 1, hit := 0, miss := 1, expired := 0
    uncachable_class := 0 }

/-- A cached successful reply with one A record of TTL 300, born at time
0 with lifetime 300, used to instantiate the C4 theorem. -/
def pkt_w4 : Dns.DNSPkt :=
  { rrs := [{ rdata := "192.0.2.9", ttl := 300 }], expiry := 300 }

/-- An IN query for h.example.com type A, used to instantiate the C4
theorem. -/
def msg_w4 : Dns.DnsMessage :=
  { in_query :=
    { question := { qdomain := "h.example.com", qtype := 1, qclass := 1 } } }

/-- A cache holding pkt_w4 under the key of msg_w4, used to instantiate
the C4 theorem. -/
def st_w4 : Dns.CacheState :=
  { cache := [({ qname := "h.example.com", qtype := 1 },
      { reply := .ok pkt_w4, birth := 0, lifetime := 300 })]
    dns_cache_size := 1, hit := 0, miss := 0, expired := 0
    uncachable_class := 0 }

/-- An IN query for t.example.com type A, used to instantiate the C5
theorem. -/
def msg_w5 : Dns.DnsMessage :=
  { in_query :=
    { question := { qdomain := "t.example.com", qtype := 1, qclass := 1 } } }

/-- The empty cache state used to instantiate the C5 theorem. -/
def st_w5 : Dns.CacheState :=
  { cache := [], dns_cache_size := 0, hit := 0, miss := 0, expired := 0
    uncachable_class := 0 }

/-- An IN query for p.example.com type A, used to instantiate the C10
theorem. -/
def msg_w10 : Dns.DnsMessage :=
  { in_query :=
    { question := { qdomain := "p.example.com", qtype := 1, qclass := 1 } } }

/-- A cache state holding one cloneable negative entry, used to
instantiate the C10 theorem. -/
def st_w10 : Dns.CacheState :=
  { cache := [({ qname := "p.example.com", qtype := 1 },
      { reply := .error (.OutReply .Timeout), birth := 0, lifetime := 8 })]
    dns_cache_size := 1, hit := 0, miss := 0, expired := 0
    uncachable_class := 0 }

namespace Dns

theorem cacheGet_cacheInsert_same (c : Cache) (k : CacheKey) (v : CacheValue) :
    cacheGet (cacheInsert c k v) k = some v := by
  simp [cacheGet, cacheInsert, List.find?]

theorem cloneable_clone_some (r : Except Error DNSPkt)
    (h : cloneable r = true) : ∃ v, clone_out_reply r = some v := by
  rcases r with e | p
  · cases e with
    | NotAuthoritative => exact ⟨_, rfl⟩
    | OutReply oe => cases oe <;> exact ⟨_, rfl⟩
    | ListenError m => simp [cloneable] at h
    | RecvError m => simp [cloneable] at h
    | ParseError m => simp [cloneable] at h
    | RefusedByAcl m => simp [cloneable] at h
  · exact ⟨.ok p, rfl⟩

theorem clone_preserves_cloneable (r v : Except Error DNSPkt)
    (h : clone_out_reply r = some v) : cloneable v = true := by
  rcases r with e | p
  · cases e with
    | NotAuthoritative =>
        simp [clone_out_reply] at h
        simp [← h, cloneable]
    | OutReply oe =>
        cases oe <;>
          · simp [clone_out_reply] at h
            simp [← h, cloneable]
    | ListenError m => simp [clone_out_reply] at h
    | RecvError m => simp [clone_out_reply] at h
    | ParseError m => simp [clone_out_reply] at h
    | RefusedByAcl m => simp [clone_out_reply] at h
  · simp [clone_out_reply] at h
    simp [← h, cloneable]

theorem clone_id_of_nontransport (e : Error)
    (hc : cloneable (.error e) = true)
    (ht : isTransportFailure e = false) :
    clone_out_reply (.error e) = some (.error e) := by
  cases e with
  | NotAuthoritative => rfl
  | OutReply oe => cases oe <;> first | rfl | simp [isTransportFailure] at ht
  | ListenError m => simp [cloneable] at hc
  | RecvError m => simp [cloneable] at hc
  | ParseError m => simp [cloneable] at hc
  | RefusedByAcl m => simp [cloneable] at hc

theorem lifetimeFor_transport (e : Error)
    (ht : isTransportFailure e = true) :
    lifetimeFor (.error e) = some 8 := by
  cases e with
  | OutReply oe => cases oe <;> first | rfl | simp [isTransportFailure] at ht
  | _ => simp [isTransportFailure] at ht

theorem lifetimeFor_nontransport (e : Error)
    (ht : isTransportFailure e = false) :
    lifetimeFor (.error e) = none := by
  cases e with
  | OutReply oe => cases oe <;> first | rfl | simp [isTransportFailure] at ht
  | _ => rfl

theorem handle_query_eq_miss_of_absent (st : CacheState) (msg : DnsMessage)
    (now t_ins : Nat) (out_result : Except Error DNSPkt)
    (hcl : msg.in_query.question.qclass = CLASS_IN)
    (hq : cacheGet st.cache (cacheKeyOf msg) = none) :
    handle_query st msg now t_ins out_result =
      handle_query_miss { st with miss := st.miss + 1 } (cacheKeyOf msg)
        t_ins out_result := by
  simp only [cacheKeyOf] at hq ⊢
  simp [handle_query, hcl, hq]

theorem handle_query_eq_miss_of_expired (st : CacheState)
    (msg : DnsMessage) (now t_ins : Nat)
    (out_result : Except Error DNSPkt) (entry : CacheValue)
    (hcl : msg.in_query.question.qclass = CLASS_IN)
    (hq : cacheGet st.cache (cacheKeyOf msg) = some entry)
    (hexp : ¬ entry.birth + entry.lifetime > now) :
    handle_query st msg now t_ins out_result =
      handle_query_miss { st with expired := st.expired + 1 }
        (cacheKeyOf msg) t_ins out_result := by
  simp only [cacheKeyOf] at hq ⊢
  simp [handle_query, hcl, hq, hexp]

theorem handle_query_eq_hit (st : CacheState) (msg : DnsMessage)
    (now t_ins : Nat) (out_result : Except Error DNSPkt)
    (entry : CacheValue)
    (hcl : msg.in_query.question.qclass = CLASS_IN)
    (hq : cacheGet st.cache (cacheKeyOf msg) = some entry)
    (hlive : entry.birth + entry.lifetime > now) :
    handle_query st msg now t_ins out_result =
      (clone_with_ttl_decrement_out_reply entry.reply
          (now - entry.birth)).map (fun r =>
        { result := r, state := { st with hit := st.hit + 1 }
          upstream_called := false }) := by
  simp only [cacheKeyOf] at hq
  simp [handle_query, hcl, hq, hlive]

theorem cacheAllCloneable_get (c : Cache) (k : CacheKey) (v : CacheValue)
    (hall : cacheAllCloneable c = true) (hg : cacheGet c k = some v) :
    cloneable v.reply = true := by
  unfold cacheGet at hg
  rcases hf : c.find? (fun kv => decide (kv.1 = k)) with _ | kv
  · rw [hf] at hg
    simp at hg
  · rw [hf] at hg
    simp only [Option.map_some'] at hg
    injection hg with h2
    subst h2
    have hmem := List.mem_of_find?_eq_some hf
    have hx := List.all_eq_true.mp hall _ hmem
    simpa using hx

theorem cloneable_clone_ttl_some (r : Except Error DNSPkt) (d : Nat)
    (h : cloneable r = true) :
    ∃ v, clone_with_ttl_decrement_out_reply r d = some v := by
  rcases r with e | p
  · obtain ⟨v, hv⟩ := cloneable_clone_some _ h
    exact ⟨v, by simpa [clone_with_ttl_decrement_out_reply] using hv⟩
  · exact ⟨.ok (p.clone_with_ttl_decrement d), rfl⟩

theorem cacheAllCloneable_insert (c : Cache) (k : CacheKey)
    (v : CacheValue) (hall : cacheAllCloneable c = true)
    (hv : cloneable v.reply = true) :
    cacheAllCloneable (cacheInsert c k v) = true := by
  unfold cacheAllCloneable cacheInsert
  unfold cacheAllCloneable at hall
  simp only [List.all_cons, hv, Bool.true_and]
  rw [List.all_eq_true] at hall ⊢
  intro x hx
  exact hall x (List.mem_of_mem_filter hx)

end Dns

namespace Dhcp

theorem serverIdsContains_insert (s : ServerIds) (ip : Nat) :
    serverIdsContains (serverIdsInsert s ip) ip = true := by
  unfold serverIdsInsert
  split
  · assumption
  · simp [serverIdsContains, List.elem]

end Dhcp

/-- C1: the claim states that after the expiry sweep at time t the cache
retains exactly the entries whose deadline has not passed.  The code does
the reverse: HashMap::retain keeps the entries on which the closure
returns true, and the closure in CacheHandler::expire returns
birth + lifetime < now, so the sweep at time 5 deletes a still-live entry
(deadline 10) and keeps an already-expired one (deadline 3). -/
theorem C1_expire_sweep_inverted :
    Dns.expireSweep
      [({ qname := "live.example.com", qtype := 1 },
        { reply := .error (.OutReply .Timeout), birth := 0, lifetime := 10 })]
      5 = [] ∧
    Dns.expireSweep
      [({ qname := "dead.example.com", qtype := 1 },
        { reply := .error (.OutReply .Timeout), birth := 0, lifetime := 3 })]
      5 =
      [({ qname := "dead.example.com", qtype := 1 },
        { reply := .error (.OutReply .Timeout), birth := 0, lifetime := 3 })] := by
  constructor <;> rfl

/-- C7 counterexample: the claim states the UDP listener is bound to
0.0.0.0:67; run_internal binds the listener to 0.0.0.0:1067. -/
theorem C7_counterexample_listener_port :
    Dhcp.run_internal_listener.bind_addr ≠ "0.0.0.0:67" := by
  decide

/-- C7 (amended): run_internal binds the UDP listener to 0.0.0.0:1067
with the receive-packet-info socket option enabled. -/
theorem C7_listener_setup :
    Dhcp.run_internal_listener.bind_addr = "0.0.0.0:1067" ∧
    Dhcp.run_internal_listener.ipv4_packet_info = true := by
  exact ⟨rfl, rfl⟩

/-- C2: every reply the DHCP handler produces (for DISCOVER or REQUEST)
echoes the xid, chaddr, giaddr and flags of the request and has op 2
(BOOTREPLY). -/
theorem C2_reply_echoes_request (pools : Dhcp.Pools) (req : Dhcp.DHCP)
    (fromAddr : Dhcp.SockAddr) (serverids : Dhcp.ServerIds)
    (reply : Dhcp.DHCP) (n : Nat)
    (h : Dhcp.handle_pkt pools (.ok req) fromAddr serverids = (.ok reply, n)) :
    reply.xid = req.xid ∧ reply.chaddr = req.chaddr ∧
    reply.giaddr = req.giaddr ∧ reply.flags = req.flags ∧ reply.op = 2 := by
  simp only [Dhcp.handle_pkt] at h
  split at h
  · cases fromAddr with
    | V4 ip port =>
        rcases halloc : pools.allocate_address "default" with _ | lease
        · simp [Dhcp.handle_discover, halloc] at h
        · simp only [Dhcp.handle_discover, halloc, Prod.mk.injEq,
            Except.ok.injEq] at h
          obtain ⟨h1, -⟩ := h
          subst h1
          exact ⟨rfl, rfl, rfl, rfl, rfl⟩
    | V6 ip port => simp [Dhcp.handle_discover] at h
  · split at h
    · rw [Dhcp.handle_request] at h
      split at h
      · cases fromAddr with
        | V4 ip port =>
            rcases halloc : pools.allocate_address "default" with _ | lease
            · simp [Dhcp.handle_request_body, halloc] at h
            · simp only [Dhcp.handle_request_body, halloc, Prod.mk.injEq,
                Except.ok.injEq] at h
              obtain ⟨h1, -⟩ := h
              subst h1
              exact ⟨rfl, rfl, rfl, rfl, rfl⟩
        | V6 ip port => simp [Dhcp.handle_request_body] at h
      · simp at h
    · simp at h

/-- C2 witness: the DISCOVER of scenario S1 produces an OFFER echoing
xid, chaddr, giaddr and flags, with op 2. -/
theorem C2_witness :
    reply_w2.xid = req_w2.xid ∧ reply_w2.chaddr = req_w2.chaddr ∧
    reply_w2.giaddr = req_w2.giaddr ∧ reply_w2.flags = req_w2.flags ∧
    reply_w2.op = 2 :=
  C2_reply_echoes_request pools_w2 req_w2 (.V4 3221225985 68) [] reply_w2 1
    (by rfl)

/-- C3: a REQUEST carrying a serveridentifier that is not in the
serverids snapshot is answered with the OtherServer error, and
allocate_address is never invoked (the invocation count is 0). -/
theorem C3_other_server_no_allocation (pools : Dhcp.Pools)
    (req : Dhcp.DHCP) (fromAddr : Dhcp.SockAddr)
    (serverids : Dhcp.ServerIds) (si : Nat)
    (hsi : req.options.serveridentifier = some si)
    (hnot : Dhcp.serverIdsContains serverids si = false) :
    Dhcp.handle_request pools req fromAddr serverids =
      (.error .OtherServer, 0) := by
  simp [Dhcp.handle_request, Dhcp.serverIdCheckPasses, hsi, hnot]

/-- C3 witness: the REQUEST of scenario S2 (serveridentifier
198.51.100.9, snapshot containing only 192.0.2.1) yields OtherServer
with zero pool allocations. -/
theorem C3_witness :
    Dhcp.handle_request pools_w3 req_w3 (.V4 3221225985 68) [3221225985] =
      (.error .OtherServer, 0) :=
  C3_other_server_no_allocation pools_w3 req_w3 (.V4 3221225985 68)
    [3221225985] 3325256713 (by rfl) (by decide)

/-- C9: a REQUEST from a non-IPv4 source whose serveridentifier gate
passes is answered with OtherServer, with no pool allocation, whereas a
DISCOVER from the same source is answered with InternalError. -/
theorem C9_non_ipv4_request_vs_discover (pools : Dhcp.Pools)
    (req : Dhcp.DHCP) (serverids : Dhcp.ServerIds) (ip port : Nat)
    (hsid : Dhcp.serverIdCheckPasses req serverids = true) :
    Dhcp.handle_request pools req (.V6 ip port) serverids =
      (.error .OtherServer, 0) ∧
    Dhcp.handle_discover pools req (.V6 ip port) serverids =
      (.error (.InternalError "Missing v4 addresses on received packet"),
       0) := by
  constructor
  · unfold Dhcp.handle_request
    rw [hsid]
    rfl
  · rfl

/-- C9 witness: a REQUEST without a serveridentifier arriving from an
IPv6 source yields OtherServer and no allocation, while the matching
DISCOVER yields InternalError. -/
theorem C9_witness :
    Dhcp.handle_request pools_w9 req_w9 (.V6 1 68) [] =
      (.error .OtherServer, 0) ∧
    Dhcp.handle_discover pools_w9 req_w9 (.V6 1 68) [] =
      (.error (.InternalError "Missing v4 addresses on received packet"),
       0) :=
  C9_non_ipv4_request_vs_discover pools_w9 req_w9 [] 1 68 (by rfl)

/-- C8: in any run of recvdhcp, whenever the transmitted reply carries a
serveridentifier, the insertion of that address into the shared server-id
registry occurs at a strictly earlier position of the event trace than
the transmission, and the address is in the registry afterwards. -/
theorem C8_serverid_inserted_before_transmit (pools : Dhcp.Pools)
    (serverids : Dhcp.ServerIds)
    (parsed : Except Dhcp.DhcpParseError Dhcp.DHCP)
    (fromAddr : Dhcp.SockAddr) (evs : List Dhcp.DhcpEvent)
    (s2 : Dhcp.ServerIds) (r : Dhcp.DHCP) (si j : Nat)
    (h : Dhcp.recvdhcp pools serverids parsed fromAddr = some (evs, s2))
    (hj : evs.get? j = some (.transmit r))
    (hsi : r.options.serveridentifier = some si) :
    ∃ i, i < j ∧ evs.get? i = some (.insertServerId si) ∧
      Dhcp.serverIdsContains s2 si = true := by
  cases fromAddr with
  | V6 ip port => simp [Dhcp.recvdhcp] at h
  | V4 ip port =>
    rcases hres : (Dhcp.handle_pkt pools parsed (Dhcp.SockAddr.V4 ip port)
        serverids).1 with e | rr
    · simp only [Dhcp.recvdhcp, hres, Option.some.injEq, Prod.mk.injEq] at h
      obtain ⟨h1, -⟩ := h
      subst h1
      cases j with
      | zero => simp [List.get?] at hj
      | succ k => simp [List.get?] at hj
    · rcases hsio : rr.options.serveridentifier with _ | si0
      · simp only [Dhcp.recvdhcp, hres, hsio, Option.some.injEq,
          Prod.mk.injEq] at h
        obtain ⟨h1, -⟩ := h
        subst h1
        cases j with
        | zero =>
            simp only [List.get?, Option.some.injEq] at hj
            cases hj
            rw [hsio] at hsi
            cases hsi
        | succ k => simp [List.get?] at hj
      · simp only [Dhcp.recvdhcp, hres, hsio, Option.some.injEq,
          Prod.mk.injEq] at h
        obtain ⟨h1, h2⟩ := h
        subst h1
        subst h2
        cases j with
        | zero => simp [List.get?] at hj
        | succ k =>
          cases k with
          | zero =>
              simp only [List.get?, Option.some.injEq] at hj
              cases hj
              rw [hsio] at hsi
              cases hsi
              exact ⟨0, Nat.zero_lt_one, rfl,
                Dhcp.serverIdsContains_insert serverids _⟩
          | succ m => simp [List.get?] at hj

/-- C8 witness: a DISCOVER handled by recvdhcp produces the trace
[insertServerId, transmit]: the registry insertion precedes the
transmission of the OFFER advertising 192.0.2.1. -/
theorem C8_witness :
    ∃ i, i < 1 ∧
      [Dhcp.DhcpEvent.insertServerId 3221225985,
       Dhcp.DhcpEvent.transmit reply_w8].get? i =
        some (.insertServerId 3221225985) ∧
      Dhcp.serverIdsContains [3221225985] 3221225985 = true :=
  C8_serverid_inserted_before_transmit pools_w8 [] (.ok req_w8)
    (.V4 3221225985 68)
    [.insertServerId 3221225985, .transmit reply_w8] [3221225985]
    reply_w8 3221225985 1 (by rfl) (by rfl) (by rfl)

/-- C6 counterexample: the claim states the dns_cache_size gauge equals
the number of cache entries after any mutation, including removals by the
expiry sweep.  Starting from the empty state, handle_query inserts one
entry and sets the gauge to 1; the sweep at time 5 then empties the cache
while CacheHandler::expire never writes the gauge, leaving it at 1. -/
theorem C6_counterexample :
    Dns.handle_query st0_w6 msg_w6 0 0 (.ok pkt_w6) =
      some { result := .ok pkt_w6, state := st1_w6
             upstream_called := true } ∧
    Dns.cacheLen (Dns.expireSweepState st1_w6 5).cache = 0 ∧
    (Dns.expireSweepState st1_w6 5).dns_cache_size = 1 := by
  refine ⟨by rfl, by rfl, by rfl⟩

/-- C6 (amended): after every insert performed by handle_query the
dns_cache_size gauge equals the number of cache entries, and handle_query
preserves gauge-equals-size on every path; the background expiry sweep,
however, does not update the gauge, so after a sweep that removes entries
the gauge can differ from the entry count. -/
theorem C6_gauge_matches_entry_count (st : Dns.CacheState)
    (msg : Dns.DnsMessage) (now t_ins : Nat)
    (out_result : Except Dns.Error Dns.DNSPkt) (o : Dns.QueryOutcome)
    (hinv : st.dns_cache_size = Dns.cacheLen st.cache)
    (h : Dns.handle_query st msg now t_ins out_result = some o) :
    o.state.dns_cache_size = Dns.cacheLen o.state.cache := by
  have hmiss : ∀ st2 ck, st2.dns_cache_size = Dns.cacheLen st2.cache →
      Dns.handle_query_miss st2 ck t_ins out_result = some o →
      o.state.dns_cache_size = Dns.cacheLen o.state.cache := by
    intro st2 ck hinv2 h2
    rw [Dns.handle_query_miss] at h2
    split at h2
    · rcases hc : Dns.clone_out_reply out_result with _ | v <;>
        rw [hc] at h2
      · simp at h2
      · simp only [Option.map_some'] at h2
        injection h2 with h3
        subst h3
        exact hinv2
    · rcases hc : Dns.clone_out_reply out_result with _ | v <;>
        rw [hc] at h2
      · simp at h2
      · simp only [Option.map_some'] at h2
        injection h2 with h3
        subst h3
        rfl
  simp only [Dns.handle_query] at h
  split at h
  · injection h with h1
    subst h1
    exact hinv
  · split at h
    · split at h
      · rcases hc : Dns.clone_with_ttl_decrement_out_reply _ _ with _ | v
        · rw [hc] at h
          simp at h
        · rw [hc] at h
          simp only [Option.map_some'] at h
          injection h with h1
          subst h1
          exact hinv
      · exact hmiss { st with expired := st.expired + 1 } _ hinv h
    · exact hmiss { st with miss := st.miss + 1 } _ hinv h

/-- C6 witness: inserting into the empty cache leaves the gauge equal to
the entry count. -/
theorem C6_witness :
    st1_w6.dns_cache_size = Dns.cacheLen st1_w6.cache :=
  C6_gauge_matches_entry_count st0_w6 msg_w6 0 0 (.ok pkt_w6)
    { result := .ok pkt_w6, state := st1_w6, upstream_called := true }
    (by rfl) (by rfl)

/-- C4: when the lookup at time now finds an entry with birth b and
lifetime L such that b + L > now whose stored reply is a successful
packet, handle_query returns a clone of that packet with every resource
record TTL equal to max(original - (now - b), 0), increments the HIT
counter, and makes no upstream call. -/
theorem C4_cache_hit_ttl_decrement (st : Dns.CacheState)
    (msg : Dns.DnsMessage) (now t_ins : Nat)
    (out_result : Except Dns.Error Dns.DNSPkt) (pkt : Dns.DNSPkt)
    (b L : Nat)
    (hclass : msg.in_query.question.qclass = Dns.CLASS_IN)
    (hget : Dns.cacheGet st.cache (Dns.cacheKeyOf msg) =
      some { reply := .ok pkt, birth := b, lifetime := L })
    (hlive : b + L > now) (hb : b ≤ now) :
    Dns.handle_query st msg now t_ins out_result =
      some { result := .ok (pkt.clone_with_ttl_decrement (now - b))
             state := { st with hit := st.hit + 1 }
             upstream_called := false } ∧
    ∀ i, ((pkt.clone_with_ttl_decrement (now - b)).rrs.get? i).map
        (fun r => (r.ttl : Int)) =
      (pkt.rrs.get? i).map
        (fun r => max ((r.ttl : Int) - ((now : Int) - (b : Int))) 0) := by
  constructor
  · rw [Dns.handle_query_eq_hit st msg now t_ins out_result _ hclass hget
      hlive]
    rfl
  · intro i
    simp only [Dns.DNSPkt.clone_with_ttl_decrement, List.get?_map,
      Option.map_map]
    cases hq : pkt.rrs.get? i with
    | none => rfl
    | some r =>
        simp only [Option.map_some', Option.some.injEq, Function.comp]
        omega

/-- C4 witness: scenario S4, a hit at time 120 on an entry born at 0 with
a TTL-300 A record returns the reply with TTL 180, one HIT recorded and
no upstream call. -/
theorem C4_witness :
    Dns.handle_query st_w4 msg_w4 120 120 (.error .NotAuthoritative) =
      some { result := .ok (pkt_w4.clone_with_ttl_decrement 120)
             state := { st_w4 with hit := 1 }
             upstream_called := false } ∧
    ∀ i, ((pkt_w4.clone_with_ttl_decrement 120).rrs.get? i).map
        (fun r => (r.ttl : Int)) =
      (pkt_w4.rrs.get? i).map
        (fun r => max ((r.ttl : Int) - ((120 : Int) - (0 : Int))) 0) :=
  C4_cache_hit_ttl_decrement st_w4 msg_w4 120 120 (.error .NotAuthoritative)
    pkt_w4 0 300 (by rfl) (by rfl) (by decide) (by decide)

/-- C5: on a cache miss, when the upstream returns one of the five
transport failures (Timeout, FailedToSend, FailedToRecv,
TcpConnectionError, ParseError) handle_query inserts a negative entry
with lifetime exactly 8 seconds for the key and surfaces the error; any
other cloneable error is returned as-is and the cache is left
unchanged. -/
theorem C5_negative_caching (st : Dns.CacheState) (msg : Dns.DnsMessage)
    (now t_ins : Nat) (err : Dns.Error)
    (hclass : msg.in_query.question.qclass = Dns.CLASS_IN)
    (hmiss : Dns.cacheGet st.cache (Dns.cacheKeyOf msg) = none ∨
      ∃ e, Dns.cacheGet st.cache (Dns.cacheKeyOf msg) = some e ∧
        ¬ e.birth + e.lifetime > now)
    (hclone : Dns.cloneable (.error err) = true) :
    (Dns.isTransportFailure err = true →
      ∃ stored st2,
        Dns.clone_out_reply (.error err) = some stored ∧
        Dns.handle_query st msg now t_ins (.error err) =
          some { result := .error err, state := st2
                 upstream_called := true } ∧
        Dns.cacheGet st2.cache (Dns.cacheKeyOf msg) =
          some { reply := stored, birth := t_ins, lifetime := 8 }) ∧
    (Dns.isTransportFailure err = false →
      ∃ st2,
        Dns.handle_query st msg now t_ins (.error err) =
          some { result := .error err, state := st2
                 upstream_called := true } ∧
        st2.cache = st.cache) := by
  obtain ⟨st2pre, hpc, hred⟩ : ∃ st2pre, st2pre.cache = st.cache ∧
      Dns.handle_query st msg now t_ins (.error err) =
        Dns.handle_query_miss st2pre (Dns.cacheKeyOf msg) t_ins
          (.error err) := by
    rcases hmiss with hnone | ⟨e, hsome, hexp⟩
    · exact ⟨{ st with miss := st.miss + 1 }, rfl,
        Dns.handle_query_eq_miss_of_absent st msg now t_ins _ hclass hnone⟩
    · exact ⟨{ st with expired := st.expired + 1 }, rfl,
        Dns.handle_query_eq_miss_of_expired st msg now t_ins _ e hclass
          hsome hexp⟩
  constructor
  · intro ht
    obtain ⟨stored, hstored⟩ := Dns.cloneable_clone_some _ hclone
    refine ⟨stored,
      { st2pre with
          cache := Dns.cacheInsert st2pre.cache (Dns.cacheKeyOf msg)
            { reply := stored, birth := t_ins, lifetime := 8 }
          dns_cache_size := Dns.cacheLen
            (Dns.cacheInsert st2pre.cache (Dns.cacheKeyOf msg)
              { reply := stored, birth := t_ins, lifetime := 8 }) },
      hstored, ?_, ?_⟩
    · rw [hred, Dns.handle_query_miss, Dns.lifetimeFor_transport err ht,
        hstored]
      rfl
    · exact Dns.cacheGet_cacheInsert_same _ _ _
  · intro ht
    refine ⟨st2pre, ?_, hpc⟩
    rw [hred, Dns.handle_query_miss, Dns.lifetimeFor_nontransport err ht,
      Dns.clone_id_of_nontransport err hclone ht]
    rfl

/-- C5 witness: scenario S5, an upstream Timeout on an empty cache at
insertion time 3 caches a negative Timeout entry with lifetime 8 and
surfaces the Timeout; the non-transport half holds vacuously. -/
theorem C5_witness :
    (Dns.isTransportFailure (.OutReply .Timeout) = true →
      ∃ stored st2,
        Dns.clone_out_reply (.error (.OutReply .Timeout)) = some stored ∧
        Dns.handle_query st_w5 msg_w5 0 3 (.error (.OutReply .Timeout)) =
          some { result := .error (.OutReply .Timeout), state := st2
                 upstream_called := true } ∧
        Dns.cacheGet st2.cache (Dns.cacheKeyOf msg_w5) =
          some { reply := stored, birth := 3, lifetime := 8 }) ∧
    (Dns.isTransportFailure (.OutReply .Timeout) = false →
      ∃ st2,
        Dns.handle_query st_w5 msg_w5 0 3 (.error (.OutReply .Timeout)) =
          some { result := .error (.OutReply .Timeout), state := st2
                 upstream_called := true } ∧
        st2.cache = st_w5.cache) :=
  C5_negative_caching st_w5 msg_w5 0 3 (.OutReply .Timeout) (by rfl)
    (Or.inl (by rfl)) (by rfl)

/-- C10: under the precondition that every cache entry and the upstream
result are cloneable (Ok, NotAuthoritative, or an OutReply variant), the
unreachable arms of the clone functions for ListenError, RecvError,
ParseError and RefusedByAcl are never executed: handle_query returns a
result (no panic) and preserves the precondition on the cache. -/
theorem C10_no_unreachable_panic (st : Dns.CacheState)
    (msg : Dns.DnsMessage) (now t_ins : Nat)
    (out_result : Except Dns.Error Dns.DNSPkt)
    (hcache : Dns.cacheAllCloneable st.cache = true)
    (hout : Dns.cloneable out_result = true) :
    ∃ o, Dns.handle_query st msg now t_ins out_result = some o ∧
      Dns.cacheAllCloneable o.state.cache = true := by
  have hm : ∀ st2 : Dns.CacheState, st2.cache = st.cache →
      ∃ o, Dns.handle_query_miss st2 (Dns.cacheKeyOf msg) t_ins
          out_result = some o ∧
        Dns.cacheAllCloneable o.state.cache = true := by
    intro st2 hc2
    obtain ⟨v, hv⟩ := Dns.cloneable_clone_some _ hout
    rcases hl : Dns.lifetimeFor out_result with _ | exp
    · refine ⟨{ result := v, state := st2, upstream_called := true },
        ?_, ?_⟩
      · rw [Dns.handle_query_miss, hl, hv]
        rfl
      · show Dns.cacheAllCloneable st2.cache = true
        rw [hc2]
        exact hcache
    · refine ⟨{ result := out_result
                state := { st2 with
                  cache := Dns.cacheInsert st2.cache (Dns.cacheKeyOf msg)
                    { reply := v, birth := t_ins, lifetime := exp }
                  dns_cache_size := Dns.cacheLen
                    (Dns.cacheInsert st2.cache (Dns.cacheKeyOf msg)
                      { reply := v, birth := t_ins, lifetime := exp }) }
                upstream_called := true }, ?_, ?_⟩
      · rw [Dns.handle_query_miss, hl, hv]
        rfl
      · show Dns.cacheAllCloneable
          (Dns.cacheInsert st2.cache (Dns.cacheKeyOf msg)
            { reply := v, birth := t_ins, lifetime := exp }) = true
        apply Dns.cacheAllCloneable_insert
        · rw [hc2]
          exact hcache
        · exact Dns.clone_preserves_cloneable _ _ hv
  by_cases hcl : msg.in_query.question.qclass = Dns.CLASS_IN
  · rcases hq : Dns.cacheGet st.cache (Dns.cacheKeyOf msg) with _ | entry
    · rw [Dns.handle_query_eq_miss_of_absent st msg now t_ins out_result
        hcl hq]
      exact hm _ rfl
    · by_cases hlive : entry.birth + entry.lifetime > now
      · rw [Dns.handle_query_eq_hit st msg now t_ins out_result entry hcl
          hq hlive]
        have hce : Dns.cloneable entry.reply = true :=
          Dns.cacheAllCloneable_get st.cache (Dns.cacheKeyOf msg) entry
            hcache hq
        obtain ⟨v, hv⟩ := Dns.cloneable_clone_ttl_some entry.reply
          (now - entry.birth) hce
        rw [hv]
        exact ⟨_, rfl, hcache⟩
      · rw [Dns.handle_query_eq_miss_of_expired st msg now t_ins
          out_result entry hcl hq hlive]
        exact hm _ rfl
  · refine ⟨{ result := out_result
              state := { st with
                uncachable_class := st.uncachable_class + 1 }
              upstream_called := true }, ?_, hcache⟩
    simp [Dns.handle_query, hcl]

/-- C10 witness: with a cloneable cached Timeout entry and a cloneable
upstream result, handle_query returns without reaching an unreachable
arm. -/
theorem C10_witness :
    ∃ o, Dns.handle_query st_w10 msg_w10 3 3 (.error .NotAuthoritative) =
        some o ∧
      Dns.cacheAllCloneable o.state.cache = true :=
  C10_no_unreachable_panic st_w10 msg_w10 3 3 (.error .NotAuthoritative)
    (by rfl) (by rfl)
